import Mathlib

/-
Verification development for the Hand_control gesture-control pipeline.
Shallow embedding of src/core/input_simulator.py, src/core/gesture_mapping.py
and src/core/gesture_detector.py, followed by theorems about the embedded
operations.
-/

namespace HandControl

/-! ## Embedding of src/core/input_simulator.py -/

/-- Python `str.lower()` (ASCII case folding), applied character by
character. -/
def pyLower (s : String) : String := String.mk (s.data.map Char.toLower)

/-- Characters removed by Python `str.strip()`. -/
def isStripChar (c : Char) : Bool :=
  c == ' ' || c == '\t' || c == '\n' || c == '\r' || c == '\x0b' || c == '\x0c'

/-- Python `str.strip()`: drop leading and trailing whitespace. -/
def pyStrip (s : String) : String :=
  String.mk (((s.data.dropWhile isStripChar).reverse.dropWhile isStripChar).reverse)

/-- Model of the pynput key references produced by `_parse_key`: either one of
the named special keys of the `SPECIAL_KEYS` table, or a literal character key
(the source returns the one-character string itself). -/
inductive PKey where
  | space | enter | esc | tab | backspace | delete
  | up | down | left | right | home | endKey
  | page_up | page_down | insert
  | f1 | f2 | f3 | f4 | f5 | f6 | f7 | f8 | f9 | f10 | f11 | f12
  | ctrl | ctrl_l | ctrl_r | alt | alt_l | alt_r | shift | shift_l | shift_r
  | caps_lock | num_lock | print_screen | pause
  | media_play_pause | media_next | media_previous
  | media_volume_up | media_volume_down | media_volume_mute
  | char (s : String)
  deriving DecidableEq

/-- The `SPECIAL_KEYS` table of `InputSimulator`, entry for entry. -/
def SPECIAL_KEYS : List (String × PKey) := [
  ("space", .space), ("enter", .enter), ("escape", .esc), ("esc", .esc),
  ("tab", .tab), ("backspace", .backspace), ("delete", .delete),
  ("up", .up), ("down", .down), ("left", .left), ("right", .right),
  ("home", .home), ("end", .endKey),
  ("page_up", .page_up), ("page_down", .page_down), ("insert", .insert),
  ("f1", .f1), ("f2", .f2), ("f3", .f3), ("f4", .f4),
  ("f5", .f5), ("f6", .f6), ("f7", .f7), ("f8", .f8),
  ("f9", .f9), ("f10", .f10), ("f11", .f11), ("f12", .f12),
  ("ctrl", .ctrl), ("ctrl_l", .ctrl_l), ("ctrl_r", .ctrl_r),
  ("alt", .alt), ("alt_l", .alt_l), ("alt_r", .alt_r),
  ("shift", .shift), ("shift_l", .shift_l), ("shift_r", .shift_r),
  ("caps_lock", .caps_lock), ("num_lock", .num_lock),
  ("print_screen", .print_screen), ("pause", .pause),
  ("media_play_pause", .media_play_pause), ("media_next", .media_next),
  ("media_previous", .media_previous), ("media_volume_up", .media_volume_up),
  ("media_volume_down", .media_volume_down),
  ("media_volume_mute", .media_volume_mute)]

/-- `InputSimulator._parse_key`: lowercase and strip the name, look it up in
`SPECIAL_KEYS`; otherwise, if the ORIGINAL string has exactly one character,
return it as a literal character key; otherwise the name is unresolvable. -/
def parseKey (key_str : String) : Option PKey :=
  let key_lower := pyStrip (pyLower key_str)
  match SPECIAL_KEYS.lookup key_lower with
  | some k => some k
  | none => if key_str.length = 1 then some (.char key_str) else none

/-- An observable keyboard event sent through the pynput controller. -/
inductive KeyEvent where
  | press (k : PKey)
  | release (k : PKey)
  deriving DecidableEq

/-- Mutable state of `InputSimulator`: `_last_action_time` and
`_action_cooldown` (time modelled as exact rationals). -/
structure SimState where
  lastActionTime : ℚ
  actionCooldown : ℚ
  deriving DecidableEq

/-- `InputSimulator.can_execute`: true when the elapsed time since the last
action is at least the cooldown. -/
def canExecute (st : SimState) (now : ℚ) : Bool :=
  if now - st.lastActionTime ≥ st.actionCooldown then true else false

/-- `InputSimulator.press_key`: cooldown gate, then resolve the name; when it
resolves, press and release that key and record the action time. Returns the
success flag, the list of key events sent, and the updated state. -/
def pressKey (st : SimState) (now : ℚ) (key_str : String) :
    Bool × List KeyEvent × SimState :=
  if !(canExecute st now) then (false, [], st)
  else
    match parseKey key_str with
    | some k => (true, [.press k, .release k], { st with lastActionTime := now })
    | none => (false, [], st)

/-- `InputSimulator.press_key_combo`: cooldown gate, then resolve every name;
when all resolve, press each key in list order and release each in reverse
order, recording the action time; when any name fails to resolve, send
nothing and fail. -/
def pressKeyCombo (st : SimState) (now : ℚ) (keys : List String) :
    Bool × List KeyEvent × SimState :=
  if !(canExecute st now) then (false, [], st)
  else
    match keys.mapM parseKey with
    | some ks =>
        (true, ks.map KeyEvent.press ++ ks.reverse.map KeyEvent.release,
          { st with lastActionTime := now })
    | none => (false, [], st)

/-! ## Embedding of src/core/gesture_mapping.py -/

/-- The `GestureMapping` dataclass. -/
structure GestureMapping where
  id : String
  name : String
  action_type : String
  action_value : String
  enabled : Bool
  deriving DecidableEq

/-- `GestureMappingManager.PREDEFINED_GESTURES`. -/
def PREDEFINED_GESTURES : List (String × String) :=
  [("fist", "握拳"), ("open_palm", "张开手掌"), ("thumbs_up", "竖起大拇指"),
   ("victory", "胜利手势"), ("point_up", "竖起食指")]

/-- The built-in gesture ids. -/
def builtinIds : List String := PREDEFINED_GESTURES.map Prod.fst

/-- Python dict assignment `m[k] = v` on an insertion-ordered dictionary
modelled as an association list: replace the value in place when the key is
present, else append the binding. -/
def upsert {β : Type} (m : List (String × β)) (k : String) (v : β) :
    List (String × β) :=
  if m.any (fun p => p.1 == k) then
    m.map (fun p => if p.1 == k then (k, v) else p)
  else m ++ [(k, v)]

/-- Python `del m[k]` on an insertion-ordered dictionary. -/
def eraseKey {β : Type} (m : List (String × β)) (k : String) :
    List (String × β) :=
  m.filter (fun p => !(p.1 == k))

/-- Python `k in m` on a dictionary modelled as an association list. -/
def hasKey {β : Type} (m : List (String × β)) (k : String) : Bool :=
  m.any (fun p => p.1 == k)

/-- The mutable state of `GestureMappingManager` relevant to the mapping and
template claims: `self.mappings` and `self._custom_gestures_data`. The
template payload type is a parameter because the manager never inspects the
landmark values it stores. -/
structure MMState (α : Type) where
  mappings : List (String × GestureMapping)
  customData : List (String × α)
  deriving DecidableEq

/-- `default_actions` of `_create_default_mappings`. -/
def default_actions : List (String × (String × String)) :=
  [("fist", ("key", "space")), ("open_palm", ("key", "escape")),
   ("thumbs_up", ("key", "enter")), ("victory", ("key", "v")),
   ("point_up", ("mouse", "left_click"))]

/-- `GestureMappingManager._create_default_mappings`: clear the mapping table
and insert one enabled mapping per predefined gesture with its default
action. -/
def createDefaultMappings : List (String × GestureMapping) :=
  PREDEFINED_GESTURES.map (fun p =>
    let av := (default_actions.lookup p.1).getD ("key", "space")
    (p.1, { id := p.1, name := p.2, action_type := av.1, action_value := av.2,
            enabled := true }))

/-- Outcome of reading and parsing the configuration document in `load`:
the document is missing, or it cannot be parsed (any exception inside the
`try` block), or it parses into custom-gesture data and a mapping list. -/
inductive LoadOutcome (α : Type) where
  | missing
  | corrupt
  | parsed (customData : List (String × α)) (mappingList : List GestureMapping)

/-- `GestureMappingManager.load`: on a parsed document install its custom
data and key its mapping list by id, returning true; on a missing or corrupt
document fall back to empty custom data and the default mappings, returning
false (the exception never escapes). -/
def load {α : Type} (st : MMState α) (o : LoadOutcome α) : Bool × MMState α :=
  match o with
  | .parsed cd ms =>
      (true, { st with customData := cd,
                       mappings := ms.foldl (fun acc m => upsert acc m.id m) [] })
  | _ => (false, { st with customData := [], mappings := createDefaultMappings })

/-- `GestureMappingManager.add_custom_gesture`: build the id
`custom_{int(time.time())}` from the current time (truncation of a
non-negative time equals the floor), store the landmarks under it, and store
a default enabled key-mapping with empty action value under it. Returns the
id and the new state. -/
def addCustomGesture {α : Type} (st : MMState α) (name : String)
    (landmarks : α) (now : ℚ) : String × MMState α :=
  let gesture_id := "custom_" ++ toString ⌊now⌋
  (gesture_id,
    { st with
      customData := upsert st.customData gesture_id landmarks,
      mappings := upsert st.mappings gesture_id
        { id := gesture_id, name := name, action_type := "key",
          action_value := "", enabled := true } })

/-- `GestureMappingManager.delete_custom_gesture`: when the id is a stored
custom gesture, remove it from the template data and (when present) from the
mappings and return true; otherwise return false and change nothing. -/
def deleteCustomGesture {α : Type} (st : MMState α) (gesture_id : String) :
    Bool × MMState α :=
  if hasKey st.customData gesture_id then
    (true, { st with customData := eraseKey st.customData gesture_id,
                     mappings := eraseKey st.mappings gesture_id })
  else (false, st)

/-! ## Embedding of src/core/gesture_detector.py

Landmark coordinates are modelled as exact reals; a landmark is an
(x, y, z) triple. -/

/-- One hand landmark: an (x, y, z) coordinate triple. -/
abbrev Point : Type := ℝ × ℝ × ℝ

/-- The gesture types of the `GestureType` enum. -/
inductive GestureType where
  | none | fist | open_palm | thumbs_up | victory | point_up | custom
  deriving DecidableEq

noncomputable section

/-- Componentwise subtraction of landmark points (numpy `points - wrist`). -/
def psub (p q : Point) : Point := (p.1 - q.1, p.2.1 - q.2.1, p.2.2 - q.2.2)

/-- Componentwise division of a landmark point by a scalar
(numpy `points / max_dist`). -/
def pdiv (p : Point) (c : ℝ) : Point := (p.1 / c, p.2.1 / c, p.2.2 / c)

/-- Euclidean norm of a landmark point (numpy `np.linalg.norm`). -/
def norm3 (p : Point) : ℝ := Real.sqrt (p.1 ^ 2 + p.2.1 ^ 2 + p.2.2 ^ 2)

/-- Euclidean distance between two landmark points. -/
def dist3 (p q : Point) : ℝ := norm3 (psub p q)

/-- `np.max` of the point norms of a list, with 0 for the empty list (all
norms are non-negative, so the extra 0 never changes a non-empty maximum). -/
def maxNorm (l : List Point) : ℝ := (l.map norm3).foldr max 0

/-- The translated points of `_normalize_landmarks`: every point minus the
wrist (point 0). -/
def shiftedOf (l : List Point) : List Point := l.map (fun p => psub p l.headI)

/-- `GestureDetector._normalize_landmarks`: subtract the wrist from every
point, then, when the maximum point norm is strictly positive, divide every
point by it. -/
def normalizeLandmarks (landmarks : List Point) : List Point :=
  let shifted := shiftedOf landmarks
  if maxNorm shifted > 0 then shifted.map (fun p => pdiv p (maxNorm shifted))
  else shifted

/-- `GestureDetector._calculate_distance`: for equal-length landmark lists
the mean of the per-index Euclidean distances, and no value (Python float
infinity) when the lengths differ. -/
def calcDistance (lm1 lm2 : List Point) : Option ℝ :=
  if lm1.length = lm2.length then
    some ((((lm1.zip lm2).map (fun pq => dist3 pq.1 pq.2)).sum) / (lm1.length : ℝ))
  else none

/-- `GestureDetector.set_custom_templates`: re-normalize every incoming
template, building the complete new collection that is installed by a single
assignment. -/
def setCustomTemplates (templates : List (String × List Point)) :
    List (String × List Point) :=
  templates.map (fun p => (p.1, normalizeLandmarks p.2))

/-- The normalized-template shape: point 0 at the origin and maximum point
norm 1, or every point at the origin in the degenerate case. -/
def isNormalized (t : List Point) : Prop :=
  t.headI = ((0 : ℝ), 0, 0) ∧
    (maxNorm t = 1 ∨ ∀ p ∈ t, p = ((0 : ℝ), 0, 0))

/-- Landmark indexing (`landmarks[i]`; claims only concern 21-point frames,
where the default is never used). -/
def getP (l : List Point) (i : ℕ) : Point := l.getD i ((0 : ℝ), 0, 0)

/-- `GestureDetector._get_fingers_up`: tip above proximal joint (smaller y)
for index, middle, ring and pinky. -/
def fingersUp (l : List Point) : Bool × Bool × Bool × Bool :=
  (decide ((getP l 8).2.1 < (getP l 6).2.1),
   decide ((getP l 12).2.1 < (getP l 10).2.1),
   decide ((getP l 16).2.1 < (getP l 14).2.1),
   decide ((getP l 20).2.1 < (getP l 18).2.1))

/-- `GestureDetector._is_thumb_up`: horizontal tip-to-IP distance exceeds
half the horizontal IP-to-MCP distance. -/
def isThumbUp (l : List Point) : Bool :=
  decide (|(getP l 4).1 - (getP l 3).1| > |(getP l 3).1 - (getP l 2).1| * (1/2))

/-- The predefined-gesture branch of `_recognize_gesture`: when enabled, the
five heuristic rules in their fixed priority order, each with confidence
0.9; otherwise the NONE result with confidence 0. -/
def recognizePredefined (enable : Bool) (l : List Point) :
    GestureType × ℝ × String :=
  if enable then
    let f := fingersUp l
    let fAny := f.1 || f.2.1 || f.2.2.1 || f.2.2.2
    let fAll := f.1 && f.2.1 && f.2.2.1 && f.2.2.2
    let t := isThumbUp l
    if !fAny && !t then (.fist, 9/10, "fist")
    else if fAll && t then (.open_palm, 9/10, "open_palm")
    else if t && !fAny then (.thumbs_up, 9/10, "thumbs_up")
    else if f.1 && f.2.1 && !f.2.2.1 && !f.2.2.2 then (.victory, 9/10, "victory")
    else if f.1 && !f.2.1 && !f.2.2.1 && !f.2.2.2 then
      (.point_up, 9/10, "point_up")
    else (.none, 0, "")
  else (.none, 0, "")

/-- One iteration of the template-scan loop of `_recognize_gesture`: update
the best match when the distance to this template is strictly below the
current minimum (Python float infinity when no finite distance was seen
yet). -/
def bstep (nc : List Point) (acc : Option (String × ℝ)) (p : String × List Point) :
    Option (String × ℝ) :=
  match calcDistance nc p.2 with
  | Option.none => acc
  | some d =>
    match acc with
    | Option.none => some (p.1, d)
    | some q => if d < q.2 then some (p.1, d) else acc

/-- The template scan of `_recognize_gesture`: fold `bstep` over the stored
templates, starting from no match (`best_match_id = None`,
`min_dist = inf`). -/
def bestMatch (templates : List (String × List Point)) (nc : List Point) :
    Option (String × ℝ) :=
  templates.foldl (bstep nc) Option.none

/-- `GestureDetector._recognize_gesture`: normalize the frame, scan the
custom templates, and return the Custom decision with confidence 1 − distance
when the Python condition `best_match_id and min_dist < 0.15` holds (a
truthy, i.e. non-empty, id and a distance strictly below 0.15); otherwise
fall through to the predefined heuristics. -/
def recognizeGesture (templates : List (String × List Point))
    (enablePredefined : Bool) (landmarks : List Point) :
    GestureType × ℝ × String :=
  match bestMatch templates (normalizeLandmarks landmarks) with
  | some q =>
      if q.1 ≠ "" ∧ q.2 < 3/20 then (.custom, 1 - q.2, q.1)
      else recognizePredefined enablePredefined landmarks
  | Option.none => recognizePredefined enablePredefined landmarks

end

end HandControl

namespace HandControl

/-! ## Theorems about the input simulator -/

/-- Claim C2: for every list of key names passed to `press_key_combo`, when
the cooldown allows firing: if every name resolves, each resolved key is
pressed in the given list order and then released in strictly reverse order
and the call returns true; if any name fails to resolve, zero press and zero
release events are sent and the call returns false. -/
theorem press_key_combo_all_or_nothing (st : SimState) (now : ℚ)
    (keys : List String) (hgate : canExecute st now = true) :
    (∀ ks, keys.mapM parseKey = some ks →
      pressKeyCombo st now keys =
        (true, ks.map KeyEvent.press ++ ks.reverse.map KeyEvent.release,
          { st with lastActionTime := now })) ∧
    (keys.mapM parseKey = none →
      pressKeyCombo st now keys = (false, [], st)) := by
  constructor
  · intro ks hks
    unfold pressKeyCombo
    rw [hgate, hks]
    rfl
  · intro hks
    unfold pressKeyCombo
    rw [hgate, hks]
    rfl

/-- Witness for C2 at concrete inputs: with the gate open, the combo
["ctrl", "shift", "x"] presses ctrl, shift, x and releases x, shift, ctrl,
and the combo ["ctrl", "??"] sends no events and fails. -/
theorem press_key_combo_all_or_nothing_witness :
    pressKeyCombo ⟨0, 1/2⟩ 1 ["ctrl", "shift", "x"] =
      (true,
        [.press .ctrl, .press .shift, .press (.char "x"),
         .release (.char "x"), .release .shift, .release .ctrl],
        { lastActionTime := 1, actionCooldown := 1/2 }) ∧
    pressKeyCombo ⟨0, 1/2⟩ 1 ["ctrl", "??"] = (false, [], ⟨0, 1/2⟩) := by
  have hgate : canExecute ⟨0, 1/2⟩ 1 = true := by
    unfold canExecute
    norm_num
  constructor
  · exact (press_key_combo_all_or_nothing ⟨0, 1/2⟩ 1 ["ctrl", "shift", "x"]
      hgate).1 [.ctrl, .shift, .char "x"] (by decide)
  · exact (press_key_combo_all_or_nothing ⟨0, 1/2⟩ 1 ["ctrl", "??"] hgate).2
      (by decide)

/-- Claim C6: `can_execute` (the gate's can-fire check) returns true if and
only if now minus the last-fire instant is at least the cooldown duration;
in particular, with duration 0.5s and a fire recorded at t = 0, the check is
false at t = 0.3 and true at t = 0.6. -/
theorem can_execute_iff :
    (∀ (st : SimState) (now : ℚ),
      canExecute st now = true ↔ now - st.lastActionTime ≥ st.actionCooldown) ∧
    canExecute ⟨0, 1/2⟩ (3/10) = false ∧ canExecute ⟨0, 1/2⟩ (6/10) = true := by
  refine ⟨fun st now => ?_, ?_, ?_⟩
  · unfold canExecute
    split <;> simp_all
  · unfold canExecute
    norm_num
  · unfold canExecute
    norm_num

/-- Witness for C6 at a concrete input: the gate with cooldown 0.5 and last
fire at 0 is open at t = 0.6. -/
theorem can_execute_iff_witness : canExecute ⟨0, 1/2⟩ (6/10) = true :=
  (can_execute_iff.1 ⟨0, 1/2⟩ (6/10)).mpr (by norm_num)

/-- Counterexample to claim C5 as stated: the name " a" has trimmed form "a"
of exactly one character, so by the claim it should resolve, but `_parse_key`
tests the length of the original, untrimmed string and returns None. -/
theorem parse_key_resolution_counterexample :
    ¬ ((parseKey " a").isSome ↔
      ((SPECIAL_KEYS.lookup (pyStrip (pyLower " a"))).isSome ∨
        (pyStrip " a").length = 1)) := by
  decide

/-- Claim C5 (amended): a key name resolves exactly when its lowercased,
trimmed form is a key in the `SPECIAL_KEYS` table, or the original
(untrimmed) name is exactly one character, in which case it is resolved as
that literal character key; any other name is unresolvable, and on an
unresolvable name `press_key` sends no key event and returns false. -/
theorem parse_key_resolution :
    (∀ s, (parseKey s).isSome ↔
      ((SPECIAL_KEYS.lookup (pyStrip (pyLower s))).isSome ∨ s.length = 1)) ∧
    (∀ (st : SimState) (now : ℚ) (s : String), parseKey s = none →
      pressKey st now s = (false, [], st)) := by
  constructor
  · intro s
    unfold parseKey
    cases h : SPECIAL_KEYS.lookup (pyStrip (pyLower s))
    · by_cases hl : s.length = 1 <;> simp [h, hl]
    · simp [h]
  · intro st now s hs
    unfold pressKey
    rw [hs]
    cases hc : canExecute st now <;> rfl

/-- Witness for C5 at concrete inputs: "ctrl" resolves, and `press_key` on
the unresolvable name "??" sends nothing and fails. -/
theorem parse_key_resolution_witness :
    (parseKey "ctrl").isSome ∧ pressKey ⟨0, 1⟩ 5 "??" = (false, [], ⟨0, 1⟩) :=
  ⟨(parse_key_resolution.1 "ctrl").mpr (Or.inl (by decide)),
   parse_key_resolution.2 ⟨0, 1⟩ 5 "??" (by decide)⟩

/-! ## Theorems about the mapping manager -/

/-- Claim C3 is violated by the code: `add_custom_gesture` derives the id
from `int(time.time())`, so two calls during the same wall-clock second (here
at t = 100.2s and t = 100.7s) return the same id "custom_100", and the second
call overwrites the first call's template and mapping instead of creating a
distinct entry. -/
theorem add_custom_gesture_id_collision :
    (addCustomGesture (⟨[], []⟩ : MMState ℕ) "A" 7 (mkRat 1002 10)).1 =
      "custom_100" ∧
    (addCustomGesture
        (addCustomGesture (⟨[], []⟩ : MMState ℕ) "A" 7 (mkRat 1002 10)).2
        "B" 8 (mkRat 1007 10)).1 = "custom_100" ∧
    (addCustomGesture
        (addCustomGesture (⟨[], []⟩ : MMState ℕ) "A" 7 (mkRat 1002 10)).2
        "B" 8 (mkRat 1007 10)).2.customData = [("custom_100", 8)] ∧
    (addCustomGesture
        (addCustomGesture (⟨[], []⟩ : MMState ℕ) "A" 7 (mkRat 1002 10)).2
        "B" 8 (mkRat 1007 10)).2.mappings =
      [("custom_100",
        { id := "custom_100", name := "B", action_type := "key",
          action_value := "", enabled := true })] := by
  refine ⟨by decide, by decide, by decide, by decide⟩

/-- Claim C4: when the configuration document is missing or cannot be
parsed, `load` returns false (the failure indicator; the exception never
reaches the caller), the custom-template set is empty afterwards, and the
mapping table consists of exactly the five built-in default mappings. -/
theorem load_failure_falls_back_to_defaults {α : Type} (st : MMState α)
    (o : LoadOutcome α) (h : o = .missing ∨ o = .corrupt) :
    load st o = (false,
      { mappings := [
          ("fist", { id := "fist", name := "握拳", action_type := "key",
                     action_value := "space", enabled := true }),
          ("open_palm", { id := "open_palm", name := "张开手掌",
                          action_type := "key", action_value := "escape",
                          enabled := true }),
          ("thumbs_up", { id := "thumbs_up", name := "竖起大拇指",
                          action_type := "key", action_value := "enter",
                          enabled := true }),
          ("victory", { id := "victory", name := "胜利手势",
                        action_type := "key", action_value := "v",
                        enabled := true }),
          ("point_up", { id := "point_up", name := "竖起食指",
                         action_type := "mouse", action_value := "left_click",
                         enabled := true })],
        customData := [] }) := by
  rcases h with h | h <;> subst h <;> rfl

/-- Witness for C4 at a concrete input: loading a missing document from a
non-trivial state yields the failure flag, no custom templates and the five
default mappings. -/
theorem load_failure_falls_back_to_defaults_witness :
    load (⟨[("custom_7", { id := "custom_7", name := "Peace",
                           action_type := "key", action_value := "p",
                           enabled := true })], [("custom_7", 3)]⟩ : MMState ℕ)
      LoadOutcome.missing =
    (false,
      { mappings := [
          ("fist", { id := "fist", name := "握拳", action_type := "key",
                     action_value := "space", enabled := true }),
          ("open_palm", { id := "open_palm", name := "张开手掌",
                          action_type := "key", action_value := "escape",
                          enabled := true }),
          ("thumbs_up", { id := "thumbs_up", name := "竖起大拇指",
                          action_type := "key", action_value := "enter",
                          enabled := true }),
          ("victory", { id := "victory", name := "胜利手势",
                        action_type := "key", action_value := "v",
                        enabled := true }),
          ("point_up", { id := "point_up", name := "竖起食指",
                         action_type := "mouse", action_value := "left_click",
                         enabled := true })],
        customData := [] }) :=
  load_failure_falls_back_to_defaults _ _ (Or.inl rfl)

/-- Erasing a key leaves no binding for it. -/
theorem hasKey_eraseKey {β : Type} (m : List (String × β)) (k : String) :
    hasKey (eraseKey m k) k = false := by
  unfold hasKey eraseKey
  rw [List.any_eq_false]
  intro p hp
  have h := List.of_mem_filter hp
  simp only [Bool.not_eq_true'] at h
  simp [h]

/-- Claim C7: `delete_custom_gesture` removes both the stored template data
and the mapping and returns true when the id names a stored custom gesture,
so that the id afterwards appears in neither store; on an id with no stored
template — an unknown id, or a built-in id, which never has a stored
template — it returns false and the state is unchanged. -/
theorem delete_custom_gesture_spec {α : Type} (st : MMState α) (gid : String)
    (hb : ∀ b ∈ builtinIds, hasKey st.customData b = false) :
    (hasKey st.customData gid = true →
      (deleteCustomGesture st gid).1 = true ∧
      hasKey (deleteCustomGesture st gid).2.customData gid = false ∧
      hasKey (deleteCustomGesture st gid).2.mappings gid = false) ∧
    (hasKey st.customData gid = false →
      deleteCustomGesture st gid = (false, st)) ∧
    (gid ∈ builtinIds → deleteCustomGesture st gid = (false, st)) := by
  have habsent : hasKey st.customData gid = false →
      deleteCustomGesture st gid = (false, st) := by
    intro h
    unfold deleteCustomGesture
    rw [h]
    rfl
  refine ⟨fun h => ?_, habsent, fun h => habsent (hb gid h)⟩
  unfold deleteCustomGesture
  rw [h]
  exact ⟨rfl, hasKey_eraseKey _ _, hasKey_eraseKey _ _⟩

/-- Witness for C7 at a concrete input: deleting the stored custom gesture
"custom_5" succeeds and removes it from both stores. -/
theorem delete_custom_gesture_spec_witness :
    (deleteCustomGesture
      (⟨[("custom_5", { id := "custom_5", name := "Peace",
                        action_type := "key", action_value := "",
                        enabled := true })],
        [("custom_5", 1)]⟩ : MMState ℕ) "custom_5").1 = true ∧
    hasKey (deleteCustomGesture
      (⟨[("custom_5", { id := "custom_5", name := "Peace",
                        action_type := "key", action_value := "",
                        enabled := true })],
        [("custom_5", 1)]⟩ : MMState ℕ) "custom_5").2.customData "custom_5" =
      false ∧
    hasKey (deleteCustomGesture
      (⟨[("custom_5", { id := "custom_5", name := "Peace",
                        action_type := "key", action_value := "",
                        enabled := true })],
        [("custom_5", 1)]⟩ : MMState ℕ) "custom_5").2.mappings "custom_5" =
      false :=
  (delete_custom_gesture_spec _ "custom_5" (by decide)).1 (by decide)

/-! ## Geometry lemmas for the landmark normalizer -/

theorem norm3_nonneg (p : Point) : 0 ≤ norm3 p := Real.sqrt_nonneg _

theorem norm3_zero : norm3 ((0 : ℝ), 0, 0) = 0 := by
  simp [norm3]

theorem norm3_eq_zero_iff (p : Point) : norm3 p = 0 ↔ p = ((0 : ℝ), 0, 0) := by
  obtain ⟨a, b, c⟩ := p
  unfold norm3
  rw [Real.sqrt_eq_zero (by positivity)]
  constructor
  · intro h
    have h1 : a = 0 := by nlinarith [sq_nonneg a, sq_nonneg b, sq_nonneg c]
    have h2 : b = 0 := by nlinarith [sq_nonneg a, sq_nonneg b, sq_nonneg c]
    have h3 : c = 0 := by nlinarith [sq_nonneg a, sq_nonneg b, sq_nonneg c]
    simp [h1, h2, h3]
  · intro h
    simp only [Prod.mk.injEq] at h
    obtain ⟨rfl, rfl, rfl⟩ := h
    norm_num

theorem norm3_pdiv (p : Point) (c : ℝ) (hc : 0 < c) :
    norm3 (pdiv p c) = norm3 p / c := by
  obtain ⟨a, b, d⟩ := p
  unfold norm3 pdiv
  rw [div_pow, div_pow, div_pow, div_add_div_same, div_add_div_same,
    Real.sqrt_div (by positivity), Real.sqrt_sq hc.le]

theorem pdiv_one (p : Point) : pdiv p 1 = p := by
  obtain ⟨a, b, c⟩ := p
  simp [pdiv]

theorem psub_self (p : Point) : psub p p = ((0 : ℝ), 0, 0) := by
  obtain ⟨a, b, c⟩ := p
  simp [psub]

theorem psub_zero (p : Point) : psub p ((0 : ℝ), 0, 0) = p := by
  obtain ⟨a, b, c⟩ := p
  simp [psub]

theorem foldr_max_nonneg (l : List ℝ) : 0 ≤ l.foldr max 0 := by
  induction l with
  | nil => exact le_rfl
  | cons a t ih => exact le_trans ih (le_max_right a _)

theorem le_foldr_max {l : List ℝ} {a : ℝ} (h : a ∈ l) : a ≤ l.foldr max 0 := by
  induction l with
  | nil => cases h
  | cons b t ih =>
      rcases List.mem_cons.mp h with rfl | h2
      · exact le_max_left a _
      · exact le_trans (ih h2) (le_max_right b _)

theorem foldr_max_eq_zero {l : List ℝ} (h : ∀ a ∈ l, a = 0) :
    l.foldr max 0 = 0 := by
  induction l with
  | nil => rfl
  | cons b t ih =>
      have hb := h b (List.mem_cons_self b t)
      have ht := ih (fun a ha => h a (List.mem_cons_of_mem b ha))
      simp [hb, ht]

theorem foldr_max_div (l : List ℝ) (c : ℝ) (hc : 0 < c) :
    (l.map (fun x => x / c)).foldr max 0 = l.foldr max 0 / c := by
  induction l with
  | nil => simp
  | cons b t ih =>
      simp only [List.map_cons, List.foldr_cons, ih, max_div_div_right hc.le]

theorem maxNorm_nonneg (l : List Point) : 0 ≤ maxNorm l := foldr_max_nonneg _

theorem maxNorm_pdiv (l : List Point) (c : ℝ) (hc : 0 < c) :
    maxNorm (l.map (fun p => pdiv p c)) = maxNorm l / c := by
  unfold maxNorm
  rw [List.map_map]
  have h1 : (norm3 ∘ fun p => pdiv p c) = fun p => norm3 p / c :=
    funext fun p => norm3_pdiv p c hc
  have h2 : (fun p => norm3 p / c) = ((fun x => x / c) ∘ norm3) := rfl
  rw [h1, h2, ← List.map_map, foldr_max_div _ _ hc]

theorem maxNorm_zero_all {l : List Point} (h : maxNorm l = 0) :
    ∀ p ∈ l, p = ((0 : ℝ), 0, 0) := by
  intro p hp
  have h1 : norm3 p ≤ 0 := by
    unfold maxNorm at h
    exact h ▸ le_foldr_max (List.mem_map_of_mem norm3 hp)
  exact (norm3_eq_zero_iff p).mp (le_antisymm h1 (norm3_nonneg p))

theorem maxNorm_of_all_zero {l : List Point}
    (h : ∀ p ∈ l, p = ((0 : ℝ), 0, 0)) : maxNorm l = 0 := by
  unfold maxNorm
  apply foldr_max_eq_zero
  intro a ha
  obtain ⟨p, hp, rfl⟩ := List.mem_map.mp ha
  rw [h p hp]
  exact norm3_zero

theorem normalizeLandmarks_headI (l : List Point) (hl : l ≠ []) :
    (normalizeLandmarks l).headI = ((0 : ℝ), 0, 0) := by
  obtain ⟨a, t, rfl⟩ := List.exists_cons_of_ne_nil hl
  have hsh : shiftedOf (a :: t) = psub a a :: t.map (fun p => psub p a) := by
    unfold shiftedOf
    simp
  show (if maxNorm (shiftedOf (a :: t)) > 0 then
      (shiftedOf (a :: t)).map (fun p => pdiv p (maxNorm (shiftedOf (a :: t))))
    else shiftedOf (a :: t)).headI = ((0 : ℝ), 0, 0)
  split
  · rw [hsh]
    simp [psub_self, pdiv]
  · rw [hsh]
    simp [psub_self]

theorem normalizeLandmarks_maxNorm (l : List Point) :
    maxNorm (normalizeLandmarks l) = 1 ∨
      ∀ p ∈ normalizeLandmarks l, p = ((0 : ℝ), 0, 0) := by
  have hdef : normalizeLandmarks l = if maxNorm (shiftedOf l) > 0 then
      (shiftedOf l).map (fun p => pdiv p (maxNorm (shiftedOf l)))
    else shiftedOf l := rfl
  by_cases h : maxNorm (shiftedOf l) > 0
  · left
    rw [hdef, if_pos h, maxNorm_pdiv _ _ h, div_self (ne_of_gt h)]
  · right
    rw [hdef, if_neg h]
    exact maxNorm_zero_all (le_antisymm (not_lt.mp h) (maxNorm_nonneg _))

theorem normalizeLandmarks_idem (l : List Point) (hl : l ≠ []) :
    normalizeLandmarks (normalizeLandmarks l) = normalizeLandmarks l := by
  have hy := normalizeLandmarks_headI l hl
  have hshift : shiftedOf (normalizeLandmarks l) = normalizeLandmarks l := by
    unfold shiftedOf
    rw [hy]
    rw [show (fun p : Point => psub p ((0 : ℝ), 0, 0)) = (fun p => p) from
      funext psub_zero]
    exact List.map_id _
  have hdef2 : normalizeLandmarks (normalizeLandmarks l) =
      if maxNorm (shiftedOf (normalizeLandmarks l)) > 0 then
        (shiftedOf (normalizeLandmarks l)).map
          (fun p => pdiv p (maxNorm (shiftedOf (normalizeLandmarks l))))
      else shiftedOf (normalizeLandmarks l) := rfl
  rcases normalizeLandmarks_maxNorm l with h1 | h1
  · rw [hdef2, hshift, h1, if_pos one_pos]
    simp [pdiv_one]
  · have h0 : maxNorm (normalizeLandmarks l) = 0 := maxNorm_of_all_zero h1
    rw [hdef2, hshift, h0, if_neg (lt_irrefl 0)]

/-! ## Theorems about the gesture detector -/

/-- Claim C8: landmark normalization is idempotent on well-formed 21-point
frames: applying the normalizer to its own output is a fixed point, with
exact (hence within any tolerance) equality in the real-number model. -/
theorem normalize_idempotent (x : List Point) (h : x.length = 21) :
    normalizeLandmarks (normalizeLandmarks x) = normalizeLandmarks x :=
  normalizeLandmarks_idem x (by
    intro hnil
    rw [hnil] at h
    simp at h)

/-- Witness for C8 at a concrete input: the 21-point frame of zeros. -/
theorem normalize_idempotent_witness :
    normalizeLandmarks (normalizeLandmarks
      (List.replicate 21 ((0 : ℝ), 0, 0))) =
      normalizeLandmarks (List.replicate 21 ((0 : ℝ), 0, 0)) :=
  normalize_idempotent _ (by simp)

/-- Claim C9: after `set_custom_templates`, every template held by the
detector is in normalized form — its point 0 is the origin and its maximum
point norm is 1, or every point is at the origin in the degenerate case —
because the setter re-normalizes every incoming 21-point template. -/
theorem set_custom_templates_normalized (ts : List (String × List Point))
    (h : ∀ p ∈ ts, (p.2).length = 21) :
    ∀ q ∈ setCustomTemplates ts, isNormalized q.2 := by
  intro q hq
  obtain ⟨p, hp, rfl⟩ := List.mem_map.mp hq
  have hne : p.2 ≠ [] := by
    intro hnil
    have hlen := h p hp
    rw [hnil] at hlen
    simp at hlen
  exact ⟨normalizeLandmarks_headI _ hne, normalizeLandmarks_maxNorm _⟩

/-- Witness for C9 at a concrete input: the template that a store holding
one 21-point template of zeros installs is in normalized form. -/
theorem set_custom_templates_normalized_witness :
    isNormalized (normalizeLandmarks (List.replicate 21 ((0 : ℝ), 0, 0))) :=
  set_custom_templates_normalized
    [("a", List.replicate 21 ((0 : ℝ), 0, 0))] (by simp)
    ("a", normalizeLandmarks (List.replicate 21 ((0 : ℝ), 0, 0)))
    (by simp [setCustomTemplates])

/-! ## Lemmas about the distance metric and the template scan -/

theorem calcDistance_nonneg {l1 l2 : List Point} {d : ℝ}
    (h : calcDistance l1 l2 = some d) : 0 ≤ d := by
  unfold calcDistance at h
  split at h
  · injection h with h'
    rw [← h']
    apply div_nonneg _ (Nat.cast_nonneg _)
    apply List.sum_nonneg
    intro x hx
    obtain ⟨pq, hpq, rfl⟩ := List.mem_map.mp hx
    exact norm3_nonneg _
  · cases h

theorem calcDistance_self (l : List Point) : calcDistance l l = some 0 := by
  have hmem : ∀ pq : Point × Point, pq ∈ l.zip l → pq.1 = pq.2 := by
    induction l with
    | nil => intro pq h; cases h
    | cons a t ih =>
        intro pq h
        rw [List.zip_cons_cons] at h
        rcases List.mem_cons.mp h with rfl | h2
        · rfl
        · exact ih pq h2
  have hz : ((l.zip l).map (fun pq => dist3 pq.1 pq.2)).sum = 0 := by
    apply List.sum_eq_zero
    intro x hx
    obtain ⟨pq, hpq, rfl⟩ := List.mem_map.mp hx
    rw [hmem pq hpq]
    unfold dist3
    rw [psub_self]
    exact norm3_zero
  unfold calcDistance
  rw [if_pos rfl, hz, zero_div]

theorem normalize_replicate_zero (n : ℕ) :
    normalizeLandmarks (List.replicate n ((0 : ℝ), 0, 0)) =
      List.replicate n ((0 : ℝ), 0, 0) := by
  have hsh : shiftedOf (List.replicate n ((0 : ℝ), 0, 0)) =
      List.replicate n ((0 : ℝ), 0, 0) := by
    unfold shiftedOf
    cases n with
    | zero => rfl
    | succ m => simp [List.replicate_succ, psub_self]
  have hdef : normalizeLandmarks (List.replicate n ((0 : ℝ), 0, 0)) =
      if maxNorm (shiftedOf (List.replicate n ((0 : ℝ), 0, 0))) > 0 then
        (shiftedOf (List.replicate n ((0 : ℝ), 0, 0))).map
          (fun p => pdiv p (maxNorm (shiftedOf (List.replicate n ((0 : ℝ), 0, 0)))))
      else shiftedOf (List.replicate n ((0 : ℝ), 0, 0)) := rfl
  have h0 : maxNorm (List.replicate n ((0 : ℝ), 0, 0)) = 0 :=
    maxNorm_of_all_zero (fun p hp => List.eq_of_mem_replicate hp)
  rw [hdef, hsh, h0, if_neg (lt_irrefl 0)]

theorem bstep_cases (nc : List Point) (acc : Option (String × ℝ))
    (p : String × List Point) :
    (bstep nc acc p = acc ∧
      ∀ d0, calcDistance nc p.2 = some d0 →
        ∃ g0 m0, acc = some (g0, m0) ∧ m0 ≤ d0) ∨
    (∃ d, calcDistance nc p.2 = some d ∧ bstep nc acc p = some (p.1, d) ∧
      ∀ g0 m0, acc = some (g0, m0) → d < m0) := by
  unfold bstep
  cases hd : calcDistance nc p.2 with
  | none =>
      left
      refine ⟨rfl, fun d0 h0 => ?_⟩
      cases h0
  | some d =>
      rcases acc with _ | q
      · right
        exact ⟨d, rfl, rfl, fun g0 m0 h0 => by cases h0⟩
      · by_cases hlt : d < q.2
        · right
          refine ⟨d, rfl, ?_, ?_⟩
          · show (if d < q.2 then some (p.1, d) else some q) = some (p.1, d)
            rw [if_pos hlt]
          · intro g0 m0 h0
            injection h0 with h0'
            exact lt_of_lt_of_eq hlt (congrArg Prod.snd h0')
        · left
          refine ⟨?_, ?_⟩
          · show (if d < q.2 then some (p.1, d) else some q) = some q
            rw [if_neg hlt]
          · intro d0 h0
            injection h0 with h0'
            exact ⟨q.1, q.2, rfl, h0' ▸ not_lt.mp hlt⟩

theorem bfold_le_acc (nc : List Point) (ts : List (String × List Point)) :
    ∀ (acc : Option (String × ℝ)) (g : String) (m : ℝ),
      ts.foldl (bstep nc) acc = some (g, m) →
      acc = Option.none ∨ ∃ g0 m0, acc = some (g0, m0) ∧ m ≤ m0 := by
  induction ts with
  | nil =>
      intro acc g m h
      exact Or.inr ⟨g, m, h, le_rfl⟩
  | cons p ts ih =>
      intro acc g m h
      rcases acc with _ | q
      · exact Or.inl rfl
      · right
        rw [List.foldl_cons] at h
        have h' := ih (bstep nc (some q) p) g m h
        rcases bstep_cases nc (some q) p with ⟨hc, _⟩ | ⟨d, hdd, hc, hlt⟩
        · rw [hc] at h'
          rcases h' with h1 | h1
          · cases h1
          · exact h1
        · rw [hc] at h'
          rcases h' with h1 | ⟨g0, m0, h1, h2⟩
          · cases h1
          · injection h1 with h1'
            have hm0 : m0 = d := congrArg Prod.snd h1'.symm
            have hdq : d < q.2 := hlt q.1 q.2 rfl
            exact ⟨q.1, q.2, rfl, le_of_lt (lt_of_le_of_lt (hm0 ▸ h2) hdq)⟩

theorem bfold_min (nc : List Point) (ts : List (String × List Point)) :
    ∀ (acc : Option (String × ℝ)) (g : String) (m : ℝ),
      ts.foldl (bstep nc) acc = some (g, m) →
      ∀ g' t', (g', t') ∈ ts → ∀ d', calcDistance nc t' = some d' → m ≤ d' := by
  induction ts with
  | nil =>
      intro _ _ _ _ _ _ hmem
      cases hmem
  | cons p ts ih =>
      intro acc g m h g' t' hmem d' hd
      rw [List.foldl_cons] at h
      rcases List.mem_cons.mp hmem with heq | hmem2
      · subst heq
        rcases bstep_cases nc acc (g', t') with ⟨hc, hinfo⟩ | ⟨d, hdd, hc, _⟩
        · obtain ⟨g0, m0, hacc, hm0⟩ := hinfo d' hd
          rw [hc, hacc] at h
          rcases bfold_le_acc nc ts (some (g0, m0)) g m h with h1 | ⟨g1, m1, h1, h2⟩
          · cases h1
          · injection h1 with h1'
            have hmm : m1 = m0 := congrArg Prod.snd h1'.symm
            exact le_trans (hmm ▸ h2) hm0
        · rw [hd] at hdd
          injection hdd with hdd'
          rw [hc] at h
          rcases bfold_le_acc nc ts (some ((g', t').1, d)) g m h with
            h1 | ⟨g1, m1, h1, h2⟩
          · cases h1
          · injection h1 with h1'
            have hmm : m1 = d := congrArg Prod.snd h1'.symm
            exact le_trans (hmm ▸ h2) (le_of_eq hdd'.symm)
      · exact ih (bstep nc acc p) g m h g' t' hmem2 d' hd

theorem bfold_achieve (nc : List Point) (ts : List (String × List Point)) :
    ∀ (acc : Option (String × ℝ)) (g : String) (m : ℝ),
      ts.foldl (bstep nc) acc = some (g, m) →
      acc = some (g, m) ∨ ∃ t, (g, t) ∈ ts ∧ calcDistance nc t = some m := by
  induction ts with
  | nil =>
      intro acc g m h
      exact Or.inl h
  | cons p ts ih =>
      intro acc g m h
      rw [List.foldl_cons] at h
      rcases ih (bstep nc acc p) g m h with h1 | ⟨t, ht, hdt⟩
      · rcases bstep_cases nc acc p with ⟨hc, _⟩ | ⟨d, hdd, hc, _⟩
        · rw [hc] at h1
          exact Or.inl h1
        · rw [hc] at h1
          injection h1 with h1'
          right
          refine ⟨p.2, ?_, ?_⟩
          · have hg : g = p.1 := (congrArg Prod.fst h1').symm
            rw [hg]
            exact List.mem_cons_self p ts
          · have hm : m = d := (congrArg Prod.snd h1').symm
            rw [← hm] at hdd
            exact hdd
      · exact Or.inr ⟨t, List.mem_cons_of_mem p ht, hdt⟩

theorem bfold_some_of_acc (nc : List Point) (ts : List (String × List Point)) :
    ∀ q : String × ℝ, ∃ g m, ts.foldl (bstep nc) (some q) = some (g, m) := by
  induction ts with
  | nil =>
      intro q
      exact ⟨q.1, q.2, rfl⟩
  | cons p ts ih =>
      intro q
      rw [List.foldl_cons]
      rcases bstep_cases nc (some q) p with ⟨hc, _⟩ | ⟨d, _, hc, _⟩
      · rw [hc]
        exact ih q
      · rw [hc]
        exact ih (p.1, d)

theorem bfold_some (nc : List Point) (ts : List (String × List Point)) :
    ∀ (acc : Option (String × ℝ)) (g' : String) (t' : List Point) (d' : ℝ),
      (g', t') ∈ ts → calcDistance nc t' = some d' →
      ∃ g m, ts.foldl (bstep nc) acc = some (g, m) := by
  induction ts with
  | nil =>
      intro _ _ _ _ hmem _
      cases hmem
  | cons p ts ih =>
      intro acc g' t' d' hmem hd
      rw [List.foldl_cons]
      rcases List.mem_cons.mp hmem with heq | hmem2
      · subst heq
        rcases bstep_cases nc acc (g', t') with ⟨hc, hinfo⟩ | ⟨d, _, hc, _⟩
        · obtain ⟨g0, m0, hacc, _⟩ := hinfo d' hd
          rw [hc, hacc]
          exact bfold_some_of_acc nc ts (g0, m0)
        · rw [hc]
          exact bfold_some_of_acc nc ts ((g', t').1, d)
      · exact ih (bstep nc acc p) g' t' d' hmem2 hd

theorem recognizePredefined_fst_ne_custom (e : Bool) (f : List Point) :
    (recognizePredefined e f).1 ≠ GestureType.custom := by
  simp only [recognizePredefined]
  cases e
  · simp
  · split_ifs <;> simp

theorem recognizePredefined_conf (e : Bool) (f : List Point) :
    ((recognizePredefined e f).1 = GestureType.fist ∨
     (recognizePredefined e f).1 = GestureType.open_palm ∨
     (recognizePredefined e f).1 = GestureType.thumbs_up ∨
     (recognizePredefined e f).1 = GestureType.victory ∨
     (recognizePredefined e f).1 = GestureType.point_up →
      (recognizePredefined e f).2.1 = 9/10) ∧
    ((recognizePredefined e f).1 = GestureType.none →
      (recognizePredefined e f).2.1 = 0) := by
  simp only [recognizePredefined]
  cases e
  · simp
  · split_ifs <;> simp

/-- Claim C1 (amended): for every 21-point frame and stored template set in
which every id is a non-empty string, if the minimum distance between the
normalized frame and a stored template exists and is strictly below 0.15,
the classifier returns a Custom decision carrying the id of a minimizing
template with confidence 1 minus that distance, a value in [0, 1]; and
whenever every stored template's finite distance is at least 0.15 (in
particular when no template is stored), the decision is never Custom. The
non-empty-id restriction is forced by the Python truthiness test
`best_match_id and min_dist < 0.15`, which treats the empty-string id as
false. -/
theorem custom_match_threshold :
    (∀ (ts : List (String × List Point)) (e : Bool) (f : List Point)
        (g₀ : String) (t₀ : List Point) (d₀ : ℝ),
      f.length = 21 →
      (∀ p ∈ ts, p.1 ≠ "") →
      (g₀, t₀) ∈ ts →
      calcDistance (normalizeLandmarks f) t₀ = some d₀ →
      d₀ < 3/20 →
      (∀ g t, (g, t) ∈ ts → ∀ d, calcDistance (normalizeLandmarks f) t = some d →
        d₀ ≤ d) →
      ∃ gm tm, recognizeGesture ts e f = (.custom, 1 - d₀, gm) ∧
        (gm, tm) ∈ ts ∧ calcDistance (normalizeLandmarks f) tm = some d₀ ∧
        0 ≤ 1 - d₀ ∧ 1 - d₀ ≤ 1) ∧
    (∀ (ts : List (String × List Point)) (e : Bool) (f : List Point),
      (∀ g t, (g, t) ∈ ts → ∀ d, calcDistance (normalizeLandmarks f) t = some d →
        3/20 ≤ d) →
      (recognizeGesture ts e f).1 ≠ GestureType.custom) := by
  constructor
  · intro ts e f g₀ t₀ d₀ hlen hids hmem hd hthr hmin
    obtain ⟨g, m, hb⟩ :=
      bfold_some (normalizeLandmarks f) ts Option.none g₀ t₀ d₀ hmem hd
    have hm_le : m ≤ d₀ :=
      bfold_min (normalizeLandmarks f) ts Option.none g m hb g₀ t₀ hmem d₀ hd
    rcases bfold_achieve (normalizeLandmarks f) ts Option.none g m hb with
      h1 | ⟨t, ht, hdt⟩
    · cases h1
    have hd₀_le : d₀ ≤ m := hmin g t ht m hdt
    have hmd : m = d₀ := le_antisymm hm_le hd₀_le
    subst hmd
    have hg : g ≠ "" := hids (g, t) ht
    have hbm : bestMatch ts (normalizeLandmarks f) = some (g, m) := hb
    have hrec : recognizeGesture ts e f = (.custom, 1 - m, g) := by
      unfold recognizeGesture
      rw [hbm]
      show (if g ≠ "" ∧ m < 3/20 then (GestureType.custom, 1 - m, g)
        else recognizePredefined e f) = (GestureType.custom, 1 - m, g)
      rw [if_pos ⟨hg, hthr⟩]
    exact ⟨g, t, hrec, ht, hdt, by linarith,
      by linarith [calcDistance_nonneg hd]⟩
  · intro ts e f hall hcustom
    unfold recognizeGesture at hcustom
    rcases hbm : bestMatch ts (normalizeLandmarks f) with _ | q
    · simp only [hbm] at hcustom
      exact recognizePredefined_fst_ne_custom e f hcustom
    · simp only [hbm] at hcustom
      by_cases hc : q.1 ≠ "" ∧ q.2 < 3/20
      · have hbm2 : ts.foldl (bstep (normalizeLandmarks f)) Option.none =
            some (q.1, q.2) := by
          rw [Prod.mk.eta]
          exact hbm
        rcases bfold_achieve (normalizeLandmarks f) ts Option.none q.1 q.2 hbm2
          with h1 | ⟨t, ht, hdt⟩
        · cases h1
        · exact absurd hc.2 (not_lt.mpr (hall q.1 t ht q.2 hdt))
      · rw [if_neg hc] at hcustom
        exact recognizePredefined_fst_ne_custom e f hcustom

/-- Counterexample to claim C1 as stated: with the single template stored
under the empty-string id and a frame identical to it, the minimum distance
is 0, which is strictly below 0.15, yet the classifier does not return a
Custom decision — the Python truthiness test rejects the empty id and the
result is the NONE decision. -/
theorem custom_match_threshold_counterexample :
    calcDistance
        (normalizeLandmarks (List.replicate 21 ((0 : ℝ), 0, 0)))
        (List.replicate 21 ((0 : ℝ), 0, 0)) = some 0 ∧
    (0 : ℝ) < 3/20 ∧
    recognizeGesture [("", List.replicate 21 ((0 : ℝ), 0, 0))] false
        (List.replicate 21 ((0 : ℝ), 0, 0)) =
      (GestureType.none, 0, "") := by
  have hcd : calcDistance
      (normalizeLandmarks (List.replicate 21 ((0 : ℝ), 0, 0)))
      (List.replicate 21 ((0 : ℝ), 0, 0)) = some 0 := by
    rw [normalize_replicate_zero]
    exact calcDistance_self _
  refine ⟨hcd, by norm_num, ?_⟩
  have hbm : bestMatch [("", List.replicate 21 ((0 : ℝ), 0, 0))]
      (normalizeLandmarks (List.replicate 21 ((0 : ℝ), 0, 0))) =
      some ("", 0) := by
    unfold bestMatch
    rw [List.foldl_cons, List.foldl_nil]
    show (match calcDistance
        (normalizeLandmarks (List.replicate 21 ((0 : ℝ), 0, 0)))
        (List.replicate 21 ((0 : ℝ), 0, 0)) with
      | Option.none => (Option.none : Option (String × ℝ))
      | some d => some ("", d)) = some ("", 0)
    rw [hcd]
  unfold recognizeGesture
  simp only [hbm]
  rw [if_neg (fun h => h.1 rfl)]
  rfl

/-- Witness for C1 at a concrete input: a frame identical to the single
stored template "tpl1" yields the Custom decision with confidence 1. -/
theorem custom_match_threshold_witness :
    ∃ gm tm,
      recognizeGesture [("tpl1", List.replicate 21 ((0 : ℝ), 0, 0))] false
          (List.replicate 21 ((0 : ℝ), 0, 0)) =
        (.custom, 1 - 0, gm) ∧
      (gm, tm) ∈ [("tpl1", List.replicate 21 ((0 : ℝ), 0, 0))] ∧
      calcDistance
        (normalizeLandmarks (List.replicate 21 ((0 : ℝ), 0, 0))) tm = some 0 ∧
      (0 : ℝ) ≤ 1 - 0 ∧ (1 : ℝ) - 0 ≤ 1 :=
  custom_match_threshold.1 [("tpl1", List.replicate 21 ((0 : ℝ), 0, 0))] false
    (List.replicate 21 ((0 : ℝ), 0, 0)) "tpl1"
    (List.replicate 21 ((0 : ℝ), 0, 0)) 0
    (by simp)
    (by
      rintro p hp
      rcases List.mem_singleton.mp hp with rfl
      decide)
    (List.mem_singleton.mpr rfl)
    (by
      rw [normalize_replicate_zero]
      exact calcDistance_self _)
    (by norm_num)
    (fun g t _ d hd => calcDistance_nonneg hd)

/-- Claim C10: whenever the classifier returns one of the five built-in
heuristic decisions, the reported confidence is exactly 0.9, independent of
the landmark geometry; the NONE decision carries confidence 0 and a Custom
decision carries confidence 1 minus the scanned minimum distance. -/
theorem builtin_confidence (ts : List (String × List Point)) (e : Bool)
    (f : List Point) :
    ((recognizeGesture ts e f).1 = GestureType.fist ∨
     (recognizeGesture ts e f).1 = GestureType.open_palm ∨
     (recognizeGesture ts e f).1 = GestureType.thumbs_up ∨
     (recognizeGesture ts e f).1 = GestureType.victory ∨
     (recognizeGesture ts e f).1 = GestureType.point_up →
      (recognizeGesture ts e f).2.1 = 9/10) ∧
    ((recognizeGesture ts e f).1 = GestureType.none →
      (recognizeGesture ts e f).2.1 = 0) ∧
    ((recognizeGesture ts e f).1 = GestureType.custom →
      ∃ g d, bestMatch ts (normalizeLandmarks f) = some (g, d) ∧
        (recognizeGesture ts e f).2.1 = 1 - d) := by
  rcases hbm : bestMatch ts (normalizeLandmarks f) with _ | q
  · have hr : recognizeGesture ts e f = recognizePredefined e f := by
      unfold recognizeGesture
      rw [hbm]
    rw [hr]
    exact ⟨(recognizePredefined_conf e f).1, (recognizePredefined_conf e f).2,
      fun h => absurd h (recognizePredefined_fst_ne_custom e f)⟩
  · by_cases hc : q.1 ≠ "" ∧ q.2 < 3/20
    · have hr : recognizeGesture ts e f = (.custom, 1 - q.2, q.1) := by
        unfold recognizeGesture
        rw [hbm]
        show (if q.1 ≠ "" ∧ q.2 < 3/20 then (GestureType.custom, 1 - q.2, q.1)
          else recognizePredefined e f) = (GestureType.custom, 1 - q.2, q.1)
        rw [if_pos hc]
      rw [hr]
      refine ⟨?_, ?_, ?_⟩
      · rintro (h | h | h | h | h) <;> simp at h
      · intro h
        simp at h
      · intro _
        refine ⟨q.1, q.2, ?_, rfl⟩
        rw [Prod.mk.eta]
    · have hr : recognizeGesture ts e f = recognizePredefined e f := by
        unfold recognizeGesture
        rw [hbm]
        show (if q.1 ≠ "" ∧ q.2 < 3/20 then (GestureType.custom, 1 - q.2, q.1)
          else recognizePredefined e f) = recognizePredefined e f
        rw [if_neg hc]
      rw [hr]
      exact ⟨(recognizePredefined_conf e f).1, (recognizePredefined_conf e f).2,
        fun h => absurd h (recognizePredefined_fst_ne_custom e f)⟩

/-- Witness for C10 at a concrete input: with no templates and heuristics
disabled, the NONE decision carries confidence 0. -/
theorem builtin_confidence_witness :
    (recognizeGesture [] false (List.replicate 21 ((0 : ℝ), 0, 0))).2.1 = 0 :=
  (builtin_confidence [] false (List.replicate 21 ((0 : ℝ), 0, 0))).2.1 rfl

end HandControl
